import Mathlib

/-!
Verification of the telnet subsystem of the ESP32-S3 EasyConnect framework
(`src/ESP32-S3_EasyConnect.cpp`, `src/ESP32-S3_EasyConnect.h`).

The embedding is a shallow model of the multi-client telnet line-command
server: connection admission (`handleTelnet` lines 174-218), per-client data
draining and command dispatch (lines 221-356), the idle-timeout check
(lines 340-347), broadcast fan-out (`broadcastTelnet`, `sendToTelnet`),
client counting (`getTelnetClientCount`) and mass disconnect
(`disconnectTelnetClients`).

Modelling conventions:
* `millis()` timestamps are `Nat`.  On the device they are 32-bit unsigned
  values; within one wrap epoch (the modelled horizon) unsigned subtraction
  agrees with truncated `Nat` subtraction, so timestamps are plain `Nat`.
* A `WiFiClient` is a `Transport`: `valid` models `operator bool` (the
  `if (telnetClients[i].client)` test), `live` models `connected()`,
  `pending` the bytes currently readable, `remoteIP` the printed peer
  address, `stopped` records that `stop()` was called.  `stop()` closes the
  socket, after which `connected()` is false and `available()` is 0.
* Writes (`print`) are modelled as emitted events `(destination, text)`
  rather than mutable per-socket transcripts; `Serial` output is not
  modelled.  Slot state is everything the slot table owns: the transport
  handle, the `connected` flag and `lastActivity`.
* `Stream::readStringUntil('\n')` reads until the terminator or until the
  stream has no more data (its timeout); within one polled service cycle the
  available bytes are fixed, so it is modelled as reading up to `'\n'` or to
  the end of the pending bytes.  Bytes that arrive while the call is blocked
  inside its timeout window are real-time behaviour outside the model.
* `ESP.restart()` never returns; a dispatch that restarts the device sets a
  `halts` flag which aborts the rest of the service cycle.
* `float` configuration field `customParam4` enters the model only through
  its printed form, kept as the string field `customParam4Str`.
-/

namespace EasyConnect

/-- `MAX_TELNET_CLIENTS` from the header (line 61). -/
def MAX_TELNET_CLIENTS : Nat := 3

/-- Idle timeout in milliseconds (line 341: `> 600000`, i.e. ten minutes). -/
def idleTimeoutMs : Nat := 600000

/-- Model of a `WiFiClient` socket handle. -/
structure Transport where
  valid : Bool
  live : Bool
  stopped : Bool
  remoteIP : String
  pending : List Char
deriving Repr, DecidableEq

/-- `WiFiClient::stop()`: closes the socket; afterwards `connected()` is
false and `available()` is 0. -/
def Transport.stop (t : Transport) : Transport :=
  { t with live := false, stopped := true, pending := [] }

/-- `struct TelnetClient` from the header (lines 34-38). -/
structure TelnetClient where
  client : Transport
  connected : Bool
  lastActivity : Nat
deriving Repr, DecidableEq

/-- `struct DeviceConfig` from the header (lines 20-31); `customParam4` is a
float and is modelled by its printed form `customParam4Str`. -/
structure DeviceConfig where
  deviceName : String
  theme : String
  enableOTA : Bool
  enableTelnet : Bool
  telnetPort : Nat
  updateInterval : Nat
  customParam1 : String
  customParam2 : String
  customParam3 : Int
  customParam4Str : String
deriving Repr, DecidableEq

/-- Read-only environment values the telnet code prints: WiFi data, heap
figures and `deviceUptime`. -/
structure Env where
  ssid : String
  rssi : Int
  ip : String
  mac : String
  channel : Nat
  freeHeap : Nat
  minFreeHeap : Nat
  maxAllocHeap : Nat
  psramSize : Nat
  freePsram : Nat
  uptimeMs : Nat
deriving Repr, DecidableEq

/-- Destination of a `print`: an occupied slot's transport, or the
just-accepted (not yet stored) connection. -/
inductive Dest where
  | slot : Nat → Dest
  | newClient : Dest
deriving Repr, DecidableEq

/-- One emitted write: destination and text. -/
abbrev Ev := Dest × String

/-- `getTelnetClientCount` (lines 721-729): slots that are flagged
`connected` and whose transport still reports `connected()`. -/
def getTelnetClientCount (slots : List TelnetClient) : Nat :=
  slots.countP (fun s => s.connected && s.client.live)

/-- Loop body of `broadcastTelnet` (lines 362-366), carrying the running
slot index. -/
def broadcastLoop (msg : String) : Nat → List TelnetClient → List Ev
  | _, [] => []
  | i, s :: rest =>
    (if s.connected && s.client.live then [(Dest.slot i, msg)] else [])
      ++ broadcastLoop msg (i + 1) rest

/-- `broadcastTelnet` (lines 359-367): no-op when telnet is disabled, else
writes `msg` to every connected-and-live slot in index order. -/
def broadcastTelnet (cfg : DeviceConfig) (slots : List TelnetClient)
    (msg : String) : List Ev :=
  if cfg.enableTelnet then broadcastLoop msg 0 slots else []

/-- `sendToTelnet` (lines 369-372): guard on the enable flag, then delegate
to `broadcastTelnet`. -/
def sendToTelnet (cfg : DeviceConfig) (slots : List TelnetClient)
    (msg : String) : List Ev :=
  if cfg.enableTelnet then broadcastTelnet cfg slots msg else []

/-- Loop body of `disconnectTelnetClients` (lines 731-739), carrying the
slot index; only slots flagged `connected` get the goodbye message, a
`stop()` and `connected = false`. -/
def disconnectLoop : Nat → List TelnetClient → List TelnetClient × List Ev
  | _, [] => ([], [])
  | i, s :: rest =>
    let r := disconnectLoop (i + 1) rest
    if s.connected then
      ({ s with client := s.client.stop, connected := false } :: r.1,
       (Dest.slot i, "🔌 Server shutting down for maintenance. Goodbye!\r\n") :: r.2)
    else
      (s :: r.1, r.2)

/-- `disconnectTelnetClients` (lines 731-739). -/
def disconnectTelnetClients (slots : List TelnetClient) :
    List TelnetClient × List Ev :=
  disconnectLoop 0 slots

/-- `Stream::readStringUntil('\n')` on the bytes currently available:
returns the characters before the first `'\n'` (terminator consumed) and
the remaining bytes; with no terminator it returns everything (the read
ends when the stream runs dry). -/
def readStringUntilNL : List Char → List Char × List Char
  | [] => ([], [])
  | c :: cs =>
    if c = '\n' then ([], cs)
    else
      let r := readStringUntilNL cs
      (c :: r.1, r.2)

/-- Whitespace as removed by Arduino `String::trim` (C `isspace`). -/
def isWS (c : Char) : Bool :=
  c = ' ' || c = '\t' || c = '\n' || c = '\r' || c = '\x0b' || c = '\x0c'

/-- Arduino `String::trim()`: strip leading and trailing whitespace. -/
def trimChars (l : List Char) : List Char :=
  ((l.dropWhile isWS).reverse.dropWhile isWS).reverse

/-- The lines the `while (available()) readStringUntil('\n')` loop
(lines 224-225) extracts from a fixed stock of pending bytes; fuelled so
the recursion is structural (each read consumes at least one byte). -/
def drainLinesFuel : Nat → List Char → List (List Char)
  | 0, _ => []
  | _, [] => []
  | fuel + 1, l@(_ :: _) =>
    let r := readStringUntilNL l
    r.1 :: drainLinesFuel fuel r.2

/-- All raw lines the drain loop reads from `l` in one cycle. -/
def drainLines (l : List Char) : List (List Char) :=
  drainLinesFuel l.length l

/-- The lines of one cycle that are actually dispatched: each raw line is
trimmed and empty results are skipped (the `command.length() > 0` guard,
line 228). -/
def dispatchedLines (l : List Char) : List (List Char) :=
  ((drainLines l).map trimChars).filter (fun x => !x.isEmpty)

/-- `cmd` matches the fixed built-in command table of the dispatch chain
(lines 237-327). -/
def isBuiltin (cmd : String) : Bool :=
  cmd = "help" || cmd = "?" || cmd = "status" || cmd = "restart" ||
  cmd = "factoryreset" || cmd = "clients" || cmd = "wifi" ||
  cmd = "memory" || cmd = "config" || cmd = "clear" || cmd = "cls" ||
  cmd = "disconnect"

/-- Body of the `help` response (lines 238-249); the code appends `"> "`
last. -/
def helpBody : String :=
  "Available commands:\r\n" ++
  "  help, ?       - Show this help\r\n" ++
  "  status        - Show device status\r\n" ++
  "  restart       - Restart device\r\n" ++
  "  factoryreset  - Factory reset\r\n" ++
  "  clients       - Show connected clients\r\n" ++
  "  wifi          - Show WiFi info\r\n" ++
  "  memory        - Show memory usage\r\n" ++
  "  config        - Show current configuration\r\n" ++
  "  clear, cls    - Clear screen\r\n" ++
  "  disconnect    - Disconnect this session\r\n" ++
  "Custom commands can be added via callback\r\n"

/-- Body of the `status` response (lines 254-260). -/
def statusBody (cfg : DeviceConfig) (env : Env)
    (slots : List TelnetClient) : String :=
  "Device Status:\r\n" ++
  "  Name: " ++ cfg.deviceName ++ "\r\n" ++
  "  Uptime: " ++ toString (env.uptimeMs / 1000) ++ "s\r\n" ++
  "  Free Heap: " ++ toString env.freeHeap ++ " bytes\r\n" ++
  "  WiFi: " ++ env.ssid ++ " (" ++ toString env.rssi ++ " dBm)\r\n" ++
  "  IP: " ++ env.ip ++ "\r\n" ++
  "  Telnet clients: " ++ toString (getTelnetClientCount slots) ++ "/" ++
    toString MAX_TELNET_CLIENTS ++ "\r\n"

/-- Per-slot lines of the `clients` response (lines 276-281), carrying the
slot index `j`. -/
def clientsLines (now : Nat) : Nat → List TelnetClient → String
  | _, [] => ""
  | j, s :: rest =>
    (if s.connected && s.client.live then
      "  " ++ toString (j + 1) ++ ". " ++ s.client.remoteIP ++
      " (active " ++ toString ((now - s.lastActivity) / 1000) ++ "s ago)\r\n"
     else "") ++ clientsLines now (j + 1) rest

/-- Body of the `clients` response (lines 275-282). -/
def clientsBody (now : Nat) (slots : List TelnetClient) : String :=
  "Connected Telnet Clients:\r\n" ++ clientsLines now 0 slots

/-- Body of the `wifi` response (lines 286-291). -/
def wifiBody (env : Env) : String :=
  "WiFi Information:\r\n" ++
  "  SSID: " ++ env.ssid ++ "\r\n" ++
  "  IP: " ++ env.ip ++ "\r\n" ++
  "  MAC: " ++ env.mac ++ "\r\n" ++
  "  RSSI: " ++ toString env.rssi ++ " dBm\r\n" ++
  "  Channel: " ++ toString env.channel ++ "\r\n"

/-- Body of the `memory` response (lines 296-301). -/
def memoryBody (env : Env) : String :=
  "Memory Information:\r\n" ++
  "  Free Heap: " ++ toString env.freeHeap ++ " bytes\r\n" ++
  "  Min Free Heap: " ++ toString env.minFreeHeap ++ " bytes\r\n" ++
  "  Max Alloc Heap: " ++ toString env.maxAllocHeap ++ " bytes\r\n" ++
  "  PSRAM Size: " ++ toString env.psramSize ++ " bytes\r\n" ++
  "  Free PSRAM: " ++ toString env.freePsram ++ " bytes\r\n"

/-- Body of the `config` response (lines 306-315). -/
def configBody (cfg : DeviceConfig) : String :=
  "Current Configuration:\r\n" ++
  "  Device Name: " ++ cfg.deviceName ++ "\r\n" ++
  "  Theme: " ++ cfg.theme ++ "\r\n" ++
  "  OTA Enabled: " ++ (if cfg.enableOTA then "Yes" else "No") ++ "\r\n" ++
  "  Telnet Enabled: " ++ (if cfg.enableTelnet then "Yes" else "No") ++ "\r\n" ++
  "  Update Interval: " ++ toString cfg.updateInterval ++ "ms\r\n" ++
  "  Custom1: " ++ cfg.customParam1 ++ "\r\n" ++
  "  Custom2: " ++ cfg.customParam2 ++ "\r\n" ++
  "  Custom3: " ++ toString cfg.customParam3 ++ "\r\n" ++
  "  Custom4: " ++ cfg.customParam4Str ++ "\r\n"

/-- The fixed unknown-command response (line 334). -/
def unknownText : String :=
  "❌ Unknown command. Type \x27help\x27 for available commands.\r\n> "

/-- Result of dispatching one command line for slot `i` (lines 237-336):
the texts the core prints to that slot, whether the issuing client is
stopped and its `connected` flag cleared (`disconnect`), whether all slots
are mass-disconnected (`factoryreset`), whether the device restarts
(`restart` / `factoryreset`), and the external-hook invocation with its
arguments (raw line, slot index standing for the `WiFiClient&` handle). -/
structure DispatchResult where
  events : List Ev := []
  stopsClient : Bool := false
  clearsConnected : Bool := false
  massDisconnect : Bool := false
  halts : Bool := false
  hookCall : Option (String × Nat) := none
deriving Repr, DecidableEq

/-- The built-in command chain of `handleTelnet` (lines 237-336) for the
command `cmd` issued by slot `i`.  `restart` prints its notice and calls
`restartDevice()` (lines 670-674), whose `logln` broadcasts before
`ESP.restart()`.  `factoryreset` prints its notice and calls
`factoryReset()` (lines 676-690): a broadcast `logln`, external credential
and config clearing (not modelled), `disconnectTelnetClients`, then
`ESP.restart()`. -/
def dispatch (cfg : DeviceConfig) (env : Env) (slots : List TelnetClient)
    (now : Nat) (i : Nat) (hookRegistered : Bool) (cmd : String) :
    DispatchResult :=
  if cmd = "help" ∨ cmd = "?" then
    { events := [(Dest.slot i, helpBody ++ "> ")] }
  else if cmd = "status" then
    { events := [(Dest.slot i, statusBody cfg env slots ++ "> ")] }
  else if cmd = "restart" then
    { events := [(Dest.slot i, "🔄 Restarting device...\r\n")] ++
        broadcastTelnet cfg slots "🔄 Restarting device...\r\n",
      halts := true }
  else if cmd = "factoryreset" then
    { events := [(Dest.slot i, "🗑️ Factory reset...\r\n")] ++
        broadcastTelnet cfg slots "🗑️ Performing factory reset...\r\n" ++
        (disconnectTelnetClients slots).2,
      massDisconnect := true, halts := true }
  else if cmd = "clients" then
    { events := [(Dest.slot i, clientsBody now slots ++ "> ")] }
  else if cmd = "wifi" then
    { events := [(Dest.slot i, wifiBody env ++ "> ")] }
  else if cmd = "memory" then
    { events := [(Dest.slot i, memoryBody env ++ "> ")] }
  else if cmd = "config" then
    { events := [(Dest.slot i, configBody cfg ++ "> ")] }
  else if cmd = "clear" ∨ cmd = "cls" then
    { events := [(Dest.slot i, "\x1b[2J\x1b[H"), (Dest.slot i, "> ")] }
  else if cmd = "disconnect" then
    { events := [(Dest.slot i, "👋 Disconnecting...\r\n")],
      stopsClient := true, clearsConnected := true }
  else if hookRegistered then
    { hookCall := some (cmd, i) }
  else
    { events := [(Dest.slot i, unknownText)] }

/-- Apply the state effects of a dispatch result to the slot table. -/
def applyDispatch (slots : List TelnetClient) (i : Nat)
    (d : DispatchResult) : List TelnetClient :=
  let slots1 := if d.massDisconnect then (disconnectTelnetClients slots).1
                else slots
  match slots1[i]? with
  | none => slots1
  | some s =>
    let s1 := if d.stopsClient then { s with client := s.client.stop } else s
    let s2 := if d.clearsConnected then { s1 with connected := false } else s1
    slots1.set i s2

/-- Result of one phase of a service cycle. -/
structure StepRes where
  slots : List TelnetClient
  events : List Ev
  halted : Bool
deriving Repr, DecidableEq

/-- The `while (client.available())` drain loop for slot `i`
(lines 224-338): read one line, trim it, and when it is nonempty set
`lastActivity = millis()`, broadcast the command log (`log`/`logln`,
lines 231-234) and dispatch it.  Fuelled by the number of pending bytes;
every iteration consumes at least one byte, so that fuel is never
exhausted early. -/
def drainLoop (cfg : DeviceConfig) (env : Env) (hook : Bool) (now : Nat)
    (i : Nat) : Nat → List TelnetClient → StepRes
  | 0, slots => ⟨slots, [], false⟩
  | fuel + 1, slots =>
    match slots[i]? with
    | none => ⟨slots, [], false⟩
    | some s =>
      if s.client.pending.isEmpty then ⟨slots, [], false⟩
      else
        let rd := readStringUntilNL s.client.pending
        let command : String := ⟨trimChars rd.1⟩
        let s1 : TelnetClient := { s with client := { s.client with pending := rd.2 } }
        if command.length > 0 then
          let s2 : TelnetClient := { s1 with lastActivity := now }
          let slots2 := slots.set i s2
          let logEvs :=
            broadcastTelnet cfg slots2 "📨 Telnet command from " ++
            broadcastTelnet cfg slots2 s.client.remoteIP ++
            broadcastTelnet cfg slots2 ": " ++
            broadcastTelnet cfg slots2 (command ++ "\r\n")
          let d := dispatch cfg env slots2 now i hook command
          let slots3 := applyDispatch slots2 i d
          if d.halts then ⟨slots3, logEvs ++ d.events, true⟩
          else
            let r := drainLoop cfg env hook now i fuel slots3
            ⟨r.slots, logEvs ++ d.events ++ r.events, r.halted⟩
        else
          drainLoop cfg env hook now i fuel (slots.set i s1)

/-- Handling of one slot in the per-slot loop of `handleTelnet`
(lines 221-356): for a connected-and-live slot, drain and dispatch pending
data, then the idle-timeout check (lines 340-347); a slot flagged
connected whose transport dropped is marked free (lines 348-355). -/
def handleSlotData (cfg : DeviceConfig) (env : Env) (hook : Bool)
    (now : Nat) (i : Nat) (slots : List TelnetClient) : StepRes :=
  match slots[i]? with
  | none => ⟨slots, [], false⟩
  | some s =>
    if s.connected && s.client.live then
      let r := drainLoop cfg env hook now i s.client.pending.length slots
      if r.halted then r
      else
        match r.slots[i]? with
        | none => r
        | some s1 =>
          if now - s1.lastActivity > idleTimeoutMs then
            let evs :=
              broadcastTelnet cfg r.slots "⏰ Telnet client timeout: " ++
              broadcastTelnet cfg r.slots (s1.client.remoteIP ++ "\r\n")
            ⟨r.slots.set i { s1 with client := s1.client.stop, connected := false },
             r.events ++ evs ++ [(Dest.slot i, "⏰ Connection timeout. Goodbye!\r\n")],
             false⟩
          else r
    else
      if s.connected then
        let evs :=
          broadcastTelnet cfg slots "🔌 Telnet client disconnected: " ++
          broadcastTelnet cfg slots (s.client.remoteIP ++ "\r\n")
        ⟨slots.set i { s with connected := false }, evs, false⟩
      else ⟨slots, [], false⟩

/-- Index of the first slot with `connected == false`, the slot the
admission scan (lines 177-209) picks. -/
def firstFreeIdx : List TelnetClient → Option Nat
  | [] => none
  | s :: rest =>
    if s.connected then (firstFreeIdx rest).map (· + 1) else some 0

/-- Result of the admission scan. -/
structure AdmitRes where
  slots : List TelnetClient
  idx : Option Nat
  staleClosed : Option Transport
deriving Repr, DecidableEq

/-- The admission scan (lines 177-209): find the first slot with
`connected == false`, `stop()` any stale transport left there (the
`if (telnetClients[i].client)` test, lines 179-181), store the new
transport, set `connected = true` and `lastActivity = millis()`.
`staleClosed` records the discarded stale transport after its `stop()`. -/
def admitLoop (now : Nat) (c : Transport) : List TelnetClient → AdmitRes
  | [] => ⟨[], none, none⟩
  | s :: rest =>
    if s.connected then
      let r := admitLoop now c rest
      ⟨s :: r.slots, r.idx.map (· + 1), r.staleClosed⟩
    else
      ⟨{ client := c, connected := true, lastActivity := now } :: rest,
       some 0,
       if s.client.valid then some s.client.stop else none⟩

/-- The capacity-reached rejection text (line 214). -/
def capacityMsg : String :=
  "❌ Maximum telnet clients reached (" ++ toString MAX_TELNET_CLIENTS ++
  "). Try again later.\r\n"

/-- The welcome banner (lines 188-200), built after the new slot is stored,
so the occupancy figure counts the new client. -/
def welcomeMsg (cfg : DeviceConfig) (env : Env)
    (slots : List TelnetClient) : String :=
  "\r\n" ++
  "┌────────────────────────────────────────┐\r\n" ++
  "│       ESP32-S3 EasyConnect Telnet     │\r\n" ++
  "│              Framework v1.2.0         │\r\n" ++
  "└────────────────────────────────────────┘\r\n" ++
  "Device: " ++ cfg.deviceName ++ "\r\n" ++
  "IP: " ++ env.ip ++ "\r\n" ++
  "Free Heap: " ++ toString env.freeHeap ++ " bytes\r\n" ++
  "Uptime: " ++ toString (env.uptimeMs / 1000) ++ "s\r\n" ++
  "Connected clients: " ++ toString (getTelnetClientCount slots) ++ "/" ++
    toString MAX_TELNET_CLIENTS ++ "\r\n" ++
  "Type \x27help\x27 for available commands\r\n" ++
  "----------------------------------------\r\n" ++
  "> "

/-- Result of the new-connection phase. -/
structure ConnRes where
  slots : List TelnetClient
  backlog : List Transport
  events : List Ev
  rejected : Option Transport
  staleClosed : Option Transport
deriving Repr, DecidableEq

/-- The new-connection phase of `handleTelnet` (lines 173-218): if the
server has a pending connection (head of `backlog`), admit it into the
first free slot and print the welcome banner plus the connection log
broadcast; with no free slot, print the capacity message to the pending
connection, `stop()` it, and broadcast the rejection log.  At most the
head of the backlog is processed per call. -/
def checkNewConnections (cfg : DeviceConfig) (env : Env) (now : Nat)
    (slots : List TelnetClient) (backlog : List Transport) : ConnRes :=
  match backlog with
  | [] => ⟨slots, [], [], none, none⟩
  | c :: rest =>
    let a := admitLoop now c slots
    match a.idx with
    | some i =>
      ⟨a.slots, rest,
       (Dest.slot i, welcomeMsg cfg env a.slots) ::
         (broadcastTelnet cfg a.slots "🔌 Telnet client connected from: " ++
          broadcastTelnet cfg a.slots (c.remoteIP ++ "\r\n")),
       none, a.staleClosed⟩
    | none =>
      ⟨slots, rest,
       (Dest.newClient, capacityMsg) ::
         broadcastTelnet cfg slots
           "⚠️ Telnet connection rejected - maximum clients reached\r\n",
       some c.stop, none⟩

/-- The per-slot loop of `handleTelnet` from slot `i` on; a restart during
dispatch aborts the remaining slots. -/
def processSlotsFrom (cfg : DeviceConfig) (env : Env) (hook : Bool)
    (now : Nat) : Nat → Nat → List TelnetClient → StepRes
  | _, 0, slots => ⟨slots, [], false⟩
  | i, fuel + 1, slots =>
    let r := handleSlotData cfg env hook now i slots
    if r.halted then r
    else
      let r2 := processSlotsFrom cfg env hook now (i + 1) fuel r.slots
      ⟨r2.slots, r.events ++ r2.events, r2.halted⟩

/-- Result of one full `handleTelnet` call. -/
structure ServiceRes where
  slots : List TelnetClient
  backlog : List Transport
  events : List Ev
  rejected : Option Transport
  staleClosed : Option Transport
  halted : Bool
deriving Repr, DecidableEq

/-- One full `handleTelnet` call (lines 172-357): the new-connection phase,
then the per-slot data/timeout loop over all slots. -/
def handleTelnet (cfg : DeviceConfig) (env : Env) (hook : Bool) (now : Nat)
    (slots : List TelnetClient) (backlog : List Transport) : ServiceRes :=
  let a := checkNewConnections cfg env now slots backlog
  let p := processSlotsFrom cfg env hook now 0 a.slots.length a.slots
  ⟨p.slots, a.backlog, a.events ++ p.events, a.rejected, a.staleClosed,
   p.halted⟩

/-- `s` ends in the `"> "` prompt marker. -/
def endsWithPrompt (s : String) : Bool :=
  s.data.reverse.take 2 = [' ', '>']

/-! Concrete sample values used by witnesses and counterexamples. -/

/-- A live, freshly accepted transport with no pending bytes. -/
def sampleTransport : Transport :=
  { valid := true, live := true, stopped := false,
    remoteIP := "192.168.1.50", pending := [] }

/-- Default configuration, as set by the constructor (lines 10-20). -/
def sampleConfig : DeviceConfig :=
  { deviceName := "ESP32-S3-Device", theme := "dark", enableOTA := true,
    enableTelnet := true, telnetPort := 23, updateInterval := 5000,
    customParam1 := "", customParam2 := "", customParam3 := 0,
    customParam4Str := "0.00" }

/-- A sample environment snapshot. -/
def sampleEnv : Env :=
  { ssid := "TestNet", rssi := -50, ip := "192.168.1.7",
    mac := "AA:BB:CC:DD:EE:FF", channel := 6, freeHeap := 200000,
    minFreeHeap := 150000, maxAllocHeap := 110000, psramSize := 8388608,
    freePsram := 8000000, uptimeMs := 12000 }

/-- A free slot, as initialised by the constructor (lines 23-26). -/
def freeSlot : TelnetClient :=
  { client := { valid := false, live := false, stopped := false,
                remoteIP := "", pending := [] },
    connected := false, lastActivity := 0 }

/-- An occupied slot with a live transport. -/
def busySlot : TelnetClient :=
  { client := sampleTransport, connected := true, lastActivity := 0 }

/-- An occupied slot with a live transport and a pending "help" line. -/
def pendingSlot : TelnetClient :=
  { client := { sampleTransport with pending := "help\n".data },
    connected := true, lastActivity := 3 }

/-! ### Helper lemmas -/

theorem data_append (a b : String) : (a ++ b).data = a.data ++ b.data := by
  cases a; cases b; rfl

theorem endsWithPrompt_append (a : String) :
    endsWithPrompt (a ++ "> ") = true := by
  have h : (a ++ "> ").data = a.data ++ ['>', ' '] := by cases a; rfl
  simp [endsWithPrompt, h]

theorem rsun_rest_length_lt :
    ∀ l : List Char, l ≠ [] → (readStringUntilNL l).2.length < l.length := by
  intro l
  induction l with
  | nil => intro h; exact absurd rfl h
  | cons c cs ih =>
    intro _
    by_cases hc : c = '\n'
    · simp [readStringUntilNL, hc]
    · simp only [readStringUntilNL, if_neg hc]
      rcases cs with _ | ⟨d, ds⟩
      · simp [readStringUntilNL]
      · exact Nat.lt_trans (ih (by simp)) (Nat.lt_succ_self _)

theorem rsun_no_nl :
    ∀ l : List Char, '\n' ∉ l → readStringUntilNL l = (l, []) := by
  intro l
  induction l with
  | nil => intro _; rfl
  | cons c cs ih =>
    intro h
    have hc : ¬ c = '\n' := fun hc => h (hc ▸ List.mem_cons_self c cs)
    have hcs : '\n' ∉ cs := fun hm => h (List.mem_cons_of_mem c hm)
    simp [readStringUntilNL, hc, ih hcs]

theorem drainLinesFuel_congr :
    ∀ (n : Nat) (l : List Char) (f1 f2 : Nat), l.length ≤ n →
      l.length ≤ f1 → l.length ≤ f2 →
      drainLinesFuel f1 l = drainLinesFuel f2 l := by
  intro n
  induction n with
  | zero =>
    intro l f1 f2 hn _ _
    have : l = [] := List.length_eq_zero.mp (Nat.le_zero.mp hn)
    subst this
    cases f1 <;> cases f2 <;> rfl
  | succ n ih =>
    intro l f1 f2 hn h1 h2
    rcases l with _ | ⟨c, cs⟩
    · cases f1 <;> cases f2 <;> rfl
    · rcases f1 with _ | f1
      · exact absurd h1 (by simp)
      · rcases f2 with _ | f2
        · exact absurd h2 (by simp)
        · simp only [drainLinesFuel]
          have hlt := rsun_rest_length_lt (c :: cs) (by simp)
          have hr : (readStringUntilNL (c :: cs)).2.length ≤ n :=
            Nat.le_of_lt_succ (Nat.lt_of_lt_of_le hlt hn)
          rw [ih _ f1 f2 hr
            (Nat.le_of_lt_succ (Nat.lt_of_lt_of_le hlt h1))
            (Nat.le_of_lt_succ (Nat.lt_of_lt_of_le hlt h2))]

theorem drainLinesFuel_eq_drainLines (fuel : Nat) (l : List Char)
    (h : l.length ≤ fuel) : drainLinesFuel fuel l = drainLines l :=
  drainLinesFuel_congr l.length l fuel l.length (Nat.le_refl _) h (Nat.le_refl _)

theorem drainLines_cons (l : List Char) (h : l ≠ []) :
    drainLines l =
      (readStringUntilNL l).1 :: drainLines (readStringUntilNL l).2 := by
  rcases l with _ | ⟨c, cs⟩
  · exact absurd rfl h
  · show drainLinesFuel (c :: cs).length (c :: cs) = _
    simp only [List.length_cons, drainLinesFuel]
    rw [drainLinesFuel_eq_drainLines _ _
      (Nat.le_of_lt_succ (by simpa using rsun_rest_length_lt (c :: cs) (by simp)))]

theorem dispatchedLines_nil : dispatchedLines [] = [] := rfl

theorem dispatchedLines_cons (l : List Char) (h : l ≠ []) :
    dispatchedLines l =
      (let t := trimChars (readStringUntilNL l).1
       if t.isEmpty then dispatchedLines (readStringUntilNL l).2
       else t :: dispatchedLines (readStringUntilNL l).2) := by
  simp only [dispatchedLines, drainLines_cons l h, List.map_cons,
    List.filter_cons]
  by_cases ht : (trimChars (readStringUntilNL l).1).isEmpty
  · simp [ht]
  · simp [ht]

theorem trimChars_no_ws (l : List Char) (h : ∀ c ∈ l, isWS c = false) :
    trimChars l = l := by
  have hdw : ∀ m : List Char, (∀ c ∈ m, isWS c = false) →
      m.dropWhile isWS = m := by
    intro m hm
    cases m with
    | nil => rfl
    | cons c cs =>
      rw [List.dropWhile_cons_of_neg]
      simp [hm c (List.mem_cons_self c cs)]
  rw [trimChars, hdw l h, hdw l.reverse (fun c hc => h c (List.mem_reverse.mp hc)),
    List.reverse_reverse]

theorem broadcastLoop_eq (m : String) :
    ∀ (slots : List TelnetClient) (st : Nat),
      broadcastLoop m st slots =
        (List.range slots.length).filterMap (fun j =>
          match slots[j]? with
          | some s =>
            if s.connected && s.client.live then some (Dest.slot (st + j), m)
            else none
          | none => none) := by
  intro slots
  induction slots with
  | nil => intro st; rfl
  | cons s rest ih =>
    intro st
    simp only [broadcastLoop, List.length_cons, List.range_succ_eq_map,
      List.filterMap_cons, List.filterMap_map]
    have htail : broadcastLoop m (st + 1) rest =
        List.filterMap ((fun j =>
          match (s :: rest)[j]? with
          | some u =>
            if u.connected && u.client.live then some (Dest.slot (st + j), m)
            else none
          | none => none) ∘ Nat.succ) (List.range rest.length) := by
      rw [ih (st + 1)]
      apply List.filterMap_congr
      intro j _
      simp only [Function.comp_apply, List.getElem?_cons_succ]
      have harith : st + 1 + j = st + (j + 1) := by omega
      rw [harith]
    simp only [List.getElem?_cons_zero, Nat.add_zero]
    by_cases hs : s.connected && s.client.live
    · simp [hs, htail]
    · simp [hs, htail]

theorem getTelnetClientCount_full (slots : List TelnetClient)
    (hconn : ∀ s ∈ slots, s.connected = true)
    (hlive : ∀ s ∈ slots, s.client.live = true) :
    getTelnetClientCount slots = slots.length := by
  apply List.countP_eq_length.mpr
  intro s hs
  simp [hconn s hs, hlive s hs]

theorem admitLoop_all_connected (now : Nat) (c : Transport) :
    ∀ slots : List TelnetClient, (∀ s ∈ slots, s.connected = true) →
      admitLoop now c slots = ⟨slots, none, none⟩ := by
  intro slots
  induction slots with
  | nil => intro _; rfl
  | cons s rest ih =>
    intro h
    have hs : s.connected = true := h s (List.mem_cons_self s rest)
    have hrest := ih (fun u hu => h u (List.mem_cons_of_mem s hu))
    simp [admitLoop, hs, hrest]

theorem firstFreeIdx_get :
    ∀ (slots : List TelnetClient) (i : Nat), firstFreeIdx slots = some i →
      ∃ s, slots[i]? = some s ∧ s.connected = false := by
  intro slots
  induction slots with
  | nil => intro i h; simp [firstFreeIdx] at h
  | cons s rest ih =>
    intro i h
    by_cases hs : s.connected
    · simp only [firstFreeIdx, if_pos hs, Option.map_eq_some'] at h
      obtain ⟨j, hj, hji⟩ := h
      obtain ⟨u, hu, huc⟩ := ih j hj
      exact ⟨u, by simpa [← hji] using hu, huc⟩
    · simp only [firstFreeIdx, if_neg hs, Option.some.injEq] at h
      subst h
      exact ⟨s, by simp, by simpa using hs⟩

theorem admitLoop_spec (now : Nat) (c : Transport) :
    ∀ (slots : List TelnetClient) (i : Nat) (sOld : TelnetClient),
      firstFreeIdx slots = some i → slots[i]? = some sOld →
      admitLoop now c slots =
        ⟨slots.set i { client := c, connected := true, lastActivity := now },
         some i,
         if sOld.client.valid then some sOld.client.stop else none⟩ := by
  intro slots
  induction slots with
  | nil => intro i sOld h; simp [firstFreeIdx] at h
  | cons s rest ih =>
    intro i sOld h hget
    by_cases hs : s.connected
    · simp only [firstFreeIdx, if_pos hs, Option.map_eq_some'] at h
      obtain ⟨j, hj, hji⟩ := h
      subst hji
      have hget' : rest[j]? = some sOld := by simpa using hget
      simp [admitLoop, hs, ih j sOld hj hget', List.set_cons_succ]
    · simp only [firstFreeIdx, if_neg hs, Option.some.injEq] at h
      subst h
      have : sOld = s := by simpa using hget.symm
      subst this
      simp [admitLoop, hs]

theorem disconnectLoop_get :
    ∀ (slots : List TelnetClient) (st j : Nat),
      (disconnectLoop st slots).1[j]? =
        (slots[j]?).map (fun s =>
          if s.connected then
            { s with client := s.client.stop, connected := false }
          else s) := by
  intro slots
  induction slots with
  | nil => intro st j; simp [disconnectLoop]
  | cons s rest ih =>
    intro st j
    by_cases hs : s.connected
    · cases j with
      | zero => simp [disconnectLoop, hs]
      | succ j => simp [disconnectLoop, hs, ih (st + 1) j]
    · cases j with
      | zero => simp [disconnectLoop, hs]
      | succ j => simp [disconnectLoop, hs, ih (st + 1) j]

theorem disconnectLoop_length :
    ∀ (slots : List TelnetClient) (st : Nat),
      (disconnectLoop st slots).1.length = slots.length := by
  intro slots
  induction slots with
  | nil => intro st; rfl
  | cons s rest ih =>
    intro st
    by_cases hs : s.connected <;> simp [disconnectLoop, hs, ih (st + 1)]

theorem disconnectLoop_all_free :
    ∀ (slots : List TelnetClient) (st : Nat),
      ∀ s ∈ (disconnectLoop st slots).1, s.connected = false := by
  intro slots
  induction slots with
  | nil => intro st s hs; simp [disconnectLoop] at hs
  | cons u rest ih =>
    intro st s hs
    by_cases hu : u.connected
    · simp only [disconnectLoop, if_pos hu, List.mem_cons] at hs
      rcases hs with hs | hs
      · simp [hs]
      · exact ih (st + 1) s hs
    · simp only [disconnectLoop, if_neg hu, List.mem_cons] at hs
      rcases hs with hs | hs
      · subst hs; simpa using hu
      · exact ih (st + 1) s hs

theorem disconnectLoop_of_all_free :
    ∀ (slots : List TelnetClient) (st : Nat),
      (∀ s ∈ slots, s.connected = false) →
      disconnectLoop st slots = (slots, []) := by
  intro slots
  induction slots with
  | nil => intro st _; rfl
  | cons s rest ih =>
    intro st h
    have hs : s.connected = false := h s (List.mem_cons_self s rest)
    have hrest := ih (st + 1) (fun u hu => h u (List.mem_cons_of_mem s hu))
    simp [disconnectLoop, hs, hrest]

theorem checkNewConnections_backlog (cfg : DeviceConfig) (env : Env)
    (now : Nat) (slots : List TelnetClient) (c : Transport)
    (rest : List Transport) :
    (checkNewConnections cfg env now slots (c :: rest)).backlog = rest := by
  simp only [checkNewConnections]
  cases (admitLoop now c slots).idx <;> rfl

theorem applyDispatch_get (slots : List TelnetClient) (i : Nat)
    (s : TelnetClient) (d : DispatchResult) (hs : slots[i]? = some s) :
    ∃ s3, (applyDispatch slots i d)[i]? = some s3 ∧
      s3.lastActivity = s.lastActivity ∧
      (s3.client.pending = s.client.pending ∨ s3.client.pending = []) := by
  have step2 : ∀ (slots1 : List TelnetClient) (u : TelnetClient),
      slots1[i]? = some u →
      u.lastActivity = s.lastActivity →
      (u.client.pending = s.client.pending ∨ u.client.pending = []) →
      ∃ s3,
        (slots1.set i
          (if d.clearsConnected then
            { (if d.stopsClient then { u with client := u.client.stop } else u)
              with connected := false }
           else
            (if d.stopsClient then { u with client := u.client.stop } else u)))[i]?
          = some s3 ∧
        s3.lastActivity = s.lastActivity ∧
        (s3.client.pending = s.client.pending ∨ s3.client.pending = []) := by
    intro slots1 u hu hla hp
    have hlt : i < slots1.length := by
      rcases List.getElem?_eq_some.mp hu with ⟨h, _⟩
      exact h
    refine ⟨_, List.getElem?_set_self hlt, ?_, ?_⟩
    · by_cases h1 : d.clearsConnected <;> by_cases h2 : d.stopsClient <;>
        simp [h1, h2, Transport.stop, hla]
    · by_cases h1 : d.clearsConnected <;> by_cases h2 : d.stopsClient <;>
        simp [h1, h2, Transport.stop, hp]
  by_cases hm : d.massDisconnect
  · have h1 : (disconnectTelnetClients slots).1[i]? =
        some (if s.connected then
                { s with client := s.client.stop, connected := false }
              else s) := by
      rw [disconnectTelnetClients, disconnectLoop_get, hs, Option.map_some']
    simp only [applyDispatch, hm, if_pos]
    rw [h1]
    exact step2 _ _ h1 (by by_cases hc : s.connected <;> simp [hc])
      (by by_cases hc : s.connected <;> simp [hc, Transport.stop])
  · have hm' : d.massDisconnect = false := by simpa using hm
    simp only [applyDispatch, hm', Bool.false_eq_true, if_false]
    rw [hs]
    exact step2 _ _ hs rfl (Or.inl rfl)

theorem applyDispatch_length (slots : List TelnetClient) (i : Nat)
    (d : DispatchResult) :
    (applyDispatch slots i d).length = slots.length := by
  simp only [applyDispatch]
  by_cases hm : d.massDisconnect
  · simp only [hm, if_pos]
    have hlen : (disconnectTelnetClients slots).1.length = slots.length := by
      rw [disconnectTelnetClients]; exact disconnectLoop_length slots 0
    cases hg : (disconnectTelnetClients slots).1[i]? <;>
      simp [hlen, List.length_set]
  · simp only [hm, Bool.false_eq_true, if_neg, not_false_eq_true]
    cases hg : slots[i]? <;> simp [List.length_set]

theorem drainLoop_lastActivity (cfg : DeviceConfig) (env : Env) (hook : Bool)
    (now : Nat) (i : Nat) :
    ∀ (fuel : Nat) (slots : List TelnetClient) (s : TelnetClient),
      slots[i]? = some s → s.client.pending.length ≤ fuel →
      ∃ s', (drainLoop cfg env hook now i fuel slots).slots[i]? = some s' ∧
        s'.lastActivity =
          (if (dispatchedLines s.client.pending).isEmpty then s.lastActivity
           else now) := by
  intro fuel
  induction fuel with
  | zero =>
    intro slots s hs hlen
    have hp : s.client.pending = [] :=
      List.length_eq_zero.mp (Nat.le_zero.mp hlen)
    exact ⟨s, by simpa [drainLoop] using hs, by simp [hp, dispatchedLines_nil]⟩
  | succ fuel ih =>
    intro slots s hs hlen
    simp only [drainLoop]
    rw [hs]
    by_cases hp : s.client.pending.isEmpty
    · have hp' : s.client.pending = [] := by simpa using hp
      exact ⟨s, by simpa [hp] using hs, by simp [hp', dispatchedLines_nil]⟩
    · have hpne : s.client.pending ≠ [] := by simpa using hp
      simp only [hp, Bool.false_eq_true, if_neg, not_false_eq_true]
      have hrest_lt : (readStringUntilNL s.client.pending).2.length <
          s.client.pending.length := rsun_rest_length_lt _ hpne
      have hrest_le : (readStringUntilNL s.client.pending).2.length ≤ fuel :=
        Nat.le_of_lt_succ (Nat.lt_of_lt_of_le hrest_lt hlen)
      by_cases hcmd : (trimChars (readStringUntilNL s.client.pending).1).isEmpty
      · have hlen0 :
            ¬ (String.mk (trimChars (readStringUntilNL s.client.pending).1)).length > 0 := by
          simp only [String.length]
          simp only [List.isEmpty_iff] at hcmd
          simp [hcmd]
        rw [if_neg hlen0]
        have hget1 : (slots.set i
            { s with client := { s.client with
                pending := (readStringUntilNL s.client.pending).2 } })[i]? =
            some { s with client := { s.client with
                pending := (readStringUntilNL s.client.pending).2 } } := by
          apply List.getElem?_set_self
          rcases List.getElem?_eq_some.mp hs with ⟨h, _⟩
          exact h
        obtain ⟨s', hs', hla'⟩ := ih _ _ hget1 hrest_le
        refine ⟨s', hs', ?_⟩
        rw [hla']
        have hdisp : dispatchedLines s.client.pending =
            dispatchedLines (readStringUntilNL s.client.pending).2 := by
          rw [dispatchedLines_cons _ hpne]
          simp [hcmd]
        rw [hdisp]
      · have hlenpos :
            (String.mk (trimChars (readStringUntilNL s.client.pending).1)).length > 0 := by
          simp only [String.length]
          rcases hq : trimChars (readStringUntilNL s.client.pending).1 with _ | _
          · rw [hq] at hcmd; simp at hcmd
          · simp
        rw [if_pos hlenpos]
        have hdisp : (dispatchedLines s.client.pending).isEmpty = false := by
          rw [dispatchedLines_cons _ hpne]
          simp [hcmd]
        have hget2 : (slots.set i
            { s with
              client := { s.client with
                pending := (readStringUntilNL s.client.pending).2 },
              lastActivity := now })[i]? =
            some { s with
              client := { s.client with
                pending := (readStringUntilNL s.client.pending).2 },
              lastActivity := now } := by
          apply List.getElem?_set_self
          rcases List.getElem?_eq_some.mp hs with ⟨h, _⟩
          exact h
        obtain ⟨s3, hs3, hla3, hp3⟩ := applyDispatch_get _ i _ _ hget2
        by_cases hhalt : (dispatch cfg env
            (slots.set i
              { s with
                client := { s.client with
                  pending := (readStringUntilNL s.client.pending).2 },
                lastActivity := now })
            now i hook
            (String.mk (trimChars (readStringUntilNL s.client.pending).1))).halts
        · rw [if_pos hhalt]
          exact ⟨s3, hs3, by rw [hla3, hdisp]; simp⟩
        · rw [if_neg hhalt]
          have hp3le : s3.client.pending.length ≤ fuel := by
            rcases hp3 with hp3 | hp3 <;> rw [hp3] <;> simp [hrest_le]
          obtain ⟨s', hs', hla'⟩ := ih _ _ hs3 hp3le
          refine ⟨s', hs', ?_⟩
          rw [hla', hla3, hdisp]
          simp

theorem handleSlotData_lastActivity (cfg : DeviceConfig) (env : Env)
    (hook : Bool) (now : Nat) (i : Nat) (slots : List TelnetClient)
    (s : TelnetClient) (hs : slots[i]? = some s) (hc : s.connected = true)
    (hl : s.client.live = true) :
    ∃ s', (handleSlotData cfg env hook now i slots).slots[i]? = some s' ∧
      s'.lastActivity =
        (if (dispatchedLines s.client.pending).isEmpty then s.lastActivity
         else now) := by
  simp only [handleSlotData]
  rw [hs]
  simp only [hc, hl, Bool.and_self, if_pos]
  obtain ⟨s1, hs1, hla1⟩ :=
    drainLoop_lastActivity cfg env hook now i s.client.pending.length slots s
      hs (Nat.le_refl _)
  by_cases hhalt : (drainLoop cfg env hook now i s.client.pending.length
      slots).halted
  · rw [if_pos hhalt]
    exact ⟨s1, hs1, hla1⟩
  · rw [if_neg hhalt]
    split
    · rename_i heq
      rw [hs1] at heq
      cases heq
    · rename_i t1 heq
      rw [hs1] at heq
      injection heq with heq
      subst heq
      by_cases htime : now - s1.lastActivity > idleTimeoutMs
      · rw [if_pos htime]
        have hlt : i < (drainLoop cfg env hook now i s.client.pending.length
            slots).slots.length := by
          rcases List.getElem?_eq_some.mp hs1 with ⟨h, _⟩
          exact h
        exact ⟨_, List.getElem?_set_self hlt, hla1⟩
      · rw [if_neg htime]
        exact ⟨s1, hs1, hla1⟩

theorem broadcastLoop_dest (m : String) :
    ∀ (slots : List TelnetClient) (st : Nat),
      ∀ e ∈ broadcastLoop m st slots, ∃ j, e.1 = Dest.slot j := by
  intro slots
  induction slots with
  | nil => intro st e he; simp [broadcastLoop] at he
  | cons s rest ih =>
    intro st e he
    by_cases hs : s.connected && s.client.live
    · simp only [broadcastLoop, hs, if_pos, List.mem_append,
        List.mem_singleton] at he
      rcases he with he | he
      · exact ⟨st, by rw [he]⟩
      · exact ih (st + 1) e he
    · simp only [broadcastLoop, hs, if_neg, Bool.false_eq_true,
        not_false_eq_true, List.nil_append] at he
      exact ih (st + 1) e he

theorem broadcastTelnet_filter_newClient (cfg : DeviceConfig)
    (slots : List TelnetClient) (m : String) :
    (broadcastTelnet cfg slots m).filter
      (fun e => e.1 = Dest.newClient) = [] := by
  rw [List.filter_eq_nil_iff]
  intro e he
  by_cases hen : cfg.enableTelnet
  · rw [broadcastTelnet, if_pos hen] at he
    obtain ⟨j, hj⟩ := broadcastLoop_dest m slots 0 e he
    simp [hj]
  · rw [broadcastTelnet, if_neg hen] at he
    simp at he

/-! ### Claims -/

/-- Claim C1: with all three slots occupied, a further admission attempt is
rejected: the slot table is left exactly as it was, the pending transport
receives the single capacity-reached message and nothing else, it is
stopped without being stored, and `getTelnetClientCount` still returns 3. -/
theorem claim1_reject_at_capacity (cfg : DeviceConfig) (env : Env)
    (now : Nat) (slots : List TelnetClient) (c : Transport)
    (rest : List Transport)
    (hconn : ∀ s ∈ slots, s.connected = true)
    (hlive : ∀ s ∈ slots, s.client.live = true)
    (hlen : slots.length = 3) :
    (checkNewConnections cfg env now slots (c :: rest)).slots = slots ∧
    (checkNewConnections cfg env now slots (c :: rest)).rejected =
      some c.stop ∧
    c.stop.live = false ∧ c.stop.stopped = true ∧
    ((checkNewConnections cfg env now slots (c :: rest)).events.filter
      (fun e => e.1 = Dest.newClient)).map Prod.snd = [capacityMsg] ∧
    getTelnetClientCount
      (checkNewConnections cfg env now slots (c :: rest)).slots = 3 := by
  have ha := admitLoop_all_connected now c slots hconn
  refine ⟨?_, ?_, ?_, ?_, ?_, ?_⟩
  · simp [checkNewConnections, ha]
  · simp [checkNewConnections, ha]
  · simp [Transport.stop]
  · simp [Transport.stop]
  · simp [checkNewConnections, ha, broadcastTelnet_filter_newClient]
  · simp only [checkNewConnections, ha]
    rw [getTelnetClientCount_full slots hconn hlive, hlen]

/-- Witness for C1: three occupied live slots, a fourth connection. -/
theorem claim1_reject_at_capacity_witness :
    (checkNewConnections sampleConfig sampleEnv 5
        [busySlot, busySlot, busySlot] [sampleTransport]).slots =
      [busySlot, busySlot, busySlot] ∧
    (checkNewConnections sampleConfig sampleEnv 5
        [busySlot, busySlot, busySlot] [sampleTransport]).rejected =
      some sampleTransport.stop ∧
    sampleTransport.stop.live = false ∧
    sampleTransport.stop.stopped = true ∧
    ((checkNewConnections sampleConfig sampleEnv 5
        [busySlot, busySlot, busySlot] [sampleTransport]).events.filter
      (fun e => e.1 = Dest.newClient)).map Prod.snd = [capacityMsg] ∧
    getTelnetClientCount
      (checkNewConnections sampleConfig sampleEnv 5
        [busySlot, busySlot, busySlot] [sampleTransport]).slots = 3 :=
  claim1_reject_at_capacity sampleConfig sampleEnv 5
    [busySlot, busySlot, busySlot] sampleTransport []
    (by decide) (by decide) (by decide)

/-- Claim C2: with a free slot available, admission stores the new
transport in the free slot of lowest index with `connected = true` and
`lastActivity = now`, changes no other slot, closes (stops) any stale valid
transport left in that slot, first emits the welcome banner to the admitted
slot, and consumes only the head of the backlog — one admission per
`handleTelnet` call. -/
theorem claim2_admission (cfg : DeviceConfig) (env : Env) (hook : Bool)
    (now : Nat) (slots : List TelnetClient) (c : Transport)
    (rest : List Transport) (i : Nat)
    (hfree : firstFreeIdx slots = some i) :
    (checkNewConnections cfg env now slots (c :: rest)).slots =
      slots.set i { client := c, connected := true, lastActivity := now } ∧
    (∀ j, i ≠ j →
      (checkNewConnections cfg env now slots (c :: rest)).slots[j]? =
        slots[j]?) ∧
    (∃ sOld, slots[i]? = some sOld ∧ sOld.connected = false ∧
      (checkNewConnections cfg env now slots (c :: rest)).staleClosed =
        (if sOld.client.valid then some sOld.client.stop else none)) ∧
    (∀ t : Transport, t.stop.live = false ∧ t.stop.stopped = true) ∧
    (checkNewConnections cfg env now slots (c :: rest)).events.head? =
      some (Dest.slot i,
        welcomeMsg cfg env
          (slots.set i
            { client := c, connected := true, lastActivity := now })) ∧
    (checkNewConnections cfg env now slots (c :: rest)).backlog = rest ∧
    (handleTelnet cfg env hook now slots (c :: rest)).backlog = rest := by
  obtain ⟨sOld, hsOld, hsOldc⟩ := firstFreeIdx_get slots i hfree
  have ha := admitLoop_spec now c slots i sOld hfree hsOld
  refine ⟨?_, ?_, ?_, ?_, ?_, ?_, ?_⟩
  · simp [checkNewConnections, ha]
  · intro j hj
    simp only [checkNewConnections, ha]
    exact List.getElem?_set_ne hj
  · refine ⟨sOld, hsOld, hsOldc, ?_⟩
    simp [checkNewConnections, ha]
  · intro t
    simp [Transport.stop]
  · simp [checkNewConnections, ha]
  · simp [checkNewConnections, ha]
  · simp only [handleTelnet]
    exact checkNewConnections_backlog cfg env now slots c rest

/-- Witness for C2: slot 0 occupied, slot 1 free; the new client lands in
slot 1 at time 7. -/
theorem claim2_admission_witness :
    (checkNewConnections sampleConfig sampleEnv 7 [busySlot, freeSlot]
        [sampleTransport]).slots =
      [busySlot,
       { client := sampleTransport, connected := true, lastActivity := 7 }] ∧
    (checkNewConnections sampleConfig sampleEnv 7 [busySlot, freeSlot]
        [sampleTransport]).slots[0]? = some busySlot ∧
    (checkNewConnections sampleConfig sampleEnv 7 [busySlot, freeSlot]
        [sampleTransport]).staleClosed = none ∧
    (checkNewConnections sampleConfig sampleEnv 7 [busySlot, freeSlot]
        [sampleTransport]).backlog = [] := by
  have h := claim2_admission sampleConfig sampleEnv false 7
    [busySlot, freeSlot] sampleTransport [] 1 (by decide)
  refine ⟨?_, ?_, ?_, h.2.2.2.2.2.1⟩
  · rw [h.1]; decide
  · rw [h.2.1 0 (by decide)]; decide
  · obtain ⟨sOld, hsOld, _, hstale⟩ := h.2.2.1
    have : sOld = freeSlot := by
      have : some sOld = some freeSlot := by rw [← hsOld]; decide
      exact Option.some.inj this
    subst this
    rw [hstale]
    decide

/-- Claim C3: the idle reaper evicts an occupied live slot (with no pending
bytes this cycle) exactly when the elapsed time since `lastActivity`
exceeds the fixed 600000 ms timeout: on such a pass the slot's transport is
stopped and the slot freed, and on any earlier pass the table is unchanged. -/
theorem claim3_idle_timeout (cfg : DeviceConfig) (env : Env) (hook : Bool)
    (now : Nat) (i : Nat) (slots : List TelnetClient) (s : TelnetClient)
    (hs : slots[i]? = some s) (hc : s.connected = true)
    (hl : s.client.live = true) (hp : s.client.pending = []) :
    (handleSlotData cfg env hook now i slots).slots =
      (if now - s.lastActivity > idleTimeoutMs then
        slots.set i { s with client := s.client.stop, connected := false }
       else slots) := by
  simp only [handleSlotData]
  rw [hs]
  simp only [hc, hl, Bool.and_self, if_pos]
  rw [hp]
  simp only [List.length_nil, drainLoop, Bool.false_eq_true, if_false]
  rw [hs]
  by_cases htime : now - s.lastActivity > idleTimeoutMs <;> simp [htime]

/-- Witness for C3: a slot idle since time 0 is evicted at 600001 and
untouched at exactly 600000. -/
theorem claim3_idle_timeout_witness :
    (handleSlotData sampleConfig sampleEnv false 600001 0 [busySlot]).slots =
      [{ busySlot with client := busySlot.client.stop, connected := false }] ∧
    (handleSlotData sampleConfig sampleEnv false 600000 0 [busySlot]).slots =
      [busySlot] := by
  constructor
  · rw [claim3_idle_timeout sampleConfig sampleEnv false 600001 0 [busySlot]
      busySlot (by decide) (by decide) (by decide) (by decide)]
    decide
  · rw [claim3_idle_timeout sampleConfig sampleEnv false 600000 0 [busySlot]
      busySlot (by decide) (by decide) (by decide) (by decide)]
    decide

/-- Claim C4: eviction is idempotent: running `disconnectTelnetClients` on
its own output changes no slot and sends no message, and a slot that is
already free is left untouched by it. -/
theorem claim4_eviction_idempotent :
    (∀ slots : List TelnetClient,
      disconnectTelnetClients (disconnectTelnetClients slots).1 =
        ((disconnectTelnetClients slots).1, [])) ∧
    (∀ (slots : List TelnetClient) (i : Nat) (s : TelnetClient),
      slots[i]? = some s → s.connected = false →
      (disconnectTelnetClients slots).1[i]? = some s) := by
  constructor
  · intro slots
    exact disconnectLoop_of_all_free _ 0 (disconnectLoop_all_free slots 0)
  · intro slots i s hs hc
    rw [disconnectTelnetClients, disconnectLoop_get, hs, Option.map_some']
    simp [hc]

/-- Witness for C4: evicting twice equals evicting once on a concrete
table, and the free slot is untouched. -/
theorem claim4_eviction_idempotent_witness :
    disconnectTelnetClients (disconnectTelnetClients [busySlot, freeSlot]).1 =
      ((disconnectTelnetClients [busySlot, freeSlot]).1, []) ∧
    (disconnectTelnetClients [busySlot, freeSlot]).1[1]? = some freeSlot :=
  ⟨claim4_eviction_idempotent.1 [busySlot, freeSlot],
   claim4_eviction_idempotent.2 [busySlot, freeSlot] 1 freeSlot
     (by decide) (by decide)⟩

theorem drainLines_no_nl (bs : List Char) (hnl : '\n' ∉ bs)
    (hne : bs ≠ []) : drainLines bs = [bs] := by
  rw [drainLines_cons bs hne, rsun_no_nl bs hnl]
  rfl

theorem trimChars_replicate_a (n : Nat) :
    trimChars (List.replicate n 'a') = List.replicate n 'a' := by
  apply trimChars_no_ws
  intro c hc
  rw [List.eq_of_mem_replicate hc]
  decide

theorem dispatchedLines_replicate (n : Nat) (hn : 0 < n) :
    dispatchedLines (List.replicate n 'a') = [List.replicate n 'a'] := by
  have hne : List.replicate n 'a' ≠ [] := by
    intro h
    have := congrArg List.length h
    simp at this
    omega
  have hnl : '\n' ∉ List.replicate n 'a' := by
    intro h
    have := List.eq_of_mem_replicate h
    simp at this
  rw [dispatchedLines, drainLines_no_nl _ hnl hne, List.map_cons,
    List.map_nil, trimChars_replicate_a, List.filter_cons]
  have hie : (List.replicate n 'a').isEmpty = false := by
    rcases n with _ | n
    · omega
    · rfl
  simp [hie]

theorem replicate_a_ne (n : Nat) (hn : 0 < n) (t : String)
    (ht : t.data.head? ≠ some 'a') :
    String.mk (List.replicate n 'a') ≠ t := by
  intro h
  apply ht
  rw [← h]
  rcases n with _ | n
  · omega
  · simp [List.replicate_succ]

theorem isBuiltin_replicate_a (n : Nat) (hn : 0 < n) :
    isBuiltin (String.mk (List.replicate n 'a')) = false := by
  have hne : ∀ t : String, t.data.head? ≠ some 'a' →
      (String.mk (List.replicate n 'a') = t) = False :=
    fun t ht => eq_false (replicate_a_ne n hn t ht)
  simp [isBuiltin, hne "help" (by decide), hne "?" (by decide),
    hne "status" (by decide), hne "restart" (by decide),
    hne "factoryreset" (by decide), hne "clients" (by decide),
    hne "wifi" (by decide), hne "memory" (by decide),
    hne "config" (by decide), hne "clear" (by decide),
    hne "cls" (by decide), hne "disconnect" (by decide)]

theorem dispatch_not_builtin (cfg : DeviceConfig) (env : Env)
    (slots : List TelnetClient) (now i : Nat) (hk : Bool) (cmd : String)
    (h : isBuiltin cmd = false) :
    dispatch cfg env slots now i hk cmd =
      (if hk then { hookCall := some (cmd, i) }
       else { events := [(Dest.slot i, unknownText)] }) := by
  have h1 : cmd ≠ "help" := by intro he; rw [he] at h; simp [isBuiltin] at h
  have h2 : cmd ≠ "?" := by intro he; rw [he] at h; simp [isBuiltin] at h
  have h3 : cmd ≠ "status" := by
    intro he; rw [he] at h; simp [isBuiltin] at h
  have h4 : cmd ≠ "restart" := by
    intro he; rw [he] at h; simp [isBuiltin] at h
  have h5 : cmd ≠ "factoryreset" := by
    intro he; rw [he] at h; simp [isBuiltin] at h
  have h6 : cmd ≠ "clients" := by
    intro he; rw [he] at h; simp [isBuiltin] at h
  have h7 : cmd ≠ "wifi" := by intro he; rw [he] at h; simp [isBuiltin] at h
  have h8 : cmd ≠ "memory" := by
    intro he; rw [he] at h; simp [isBuiltin] at h
  have h9 : cmd ≠ "config" := by
    intro he; rw [he] at h; simp [isBuiltin] at h
  have h10 : cmd ≠ "clear" := by
    intro he; rw [he] at h; simp [isBuiltin] at h
  have h11 : cmd ≠ "cls" := by intro he; rw [he] at h; simp [isBuiltin] at h
  have h12 : cmd ≠ "disconnect" := by
    intro he; rw [he] at h; simp [isBuiltin] at h
  simp [dispatch, h1, h2, h3, h4, h5, h6, h7, h8, h9, h10, h11, h12]

/-- Claim C5 counterexample: the claim says bytes arriving as "he" in one
service cycle and "llo\n" in the next produce exactly one dispatched line,
"hello"; but the code keeps no buffer between cycles — the two cycles
dispatch the two lines "he" and "llo". -/
theorem claim5_cex :
    (dispatchedLines ("he".data) ++ dispatchedLines ("llo\n".data)).map
      List.asString ≠ ["hello"] := by decide

/-- Claim C5 amended: the framer's buffer does not persist between service
cycles: a byte run with no terminator is read to the end of the currently
available data and dispatched in that same cycle, so "he" then "llo\n"
across two cycles yield the two lines "he" and "llo" (the same bytes within
a single cycle yield the one line "hello"), and lines that are empty after
trimming are never dispatched. -/
theorem claim5_framer_per_cycle :
    (∀ bs : List Char, '\n' ∉ bs → bs ≠ [] → drainLines bs = [bs]) ∧
    (dispatchedLines ("he".data)).map List.asString = ["he"] ∧
    (dispatchedLines ("llo\n".data)).map List.asString = ["llo"] ∧
    (dispatchedLines ("he".data ++ "llo\n".data)).map List.asString =
      ["hello"] ∧
    (∀ bs : List Char, [] ∉ dispatchedLines bs) := by
  refine ⟨drainLines_no_nl, by decide, by decide, by decide, ?_⟩
  intro bs h
  have h2 := List.of_mem_filter h
  simp at h2

/-- Witness for C5 amended: an unterminated two-byte run is delivered whole
in its own cycle. -/
theorem claim5_framer_per_cycle_witness :
    drainLines ("hi".data) = ["hi".data] :=
  claim5_framer_per_cycle.1 ("hi".data) (by decide) (by decide)

/-- Claim C9 counterexample: the claim implies some capacity bound exists
past which an unterminated byte run is not delivered intact (the buffer
being discarded with a "line too long" error); but for every candidate
bound, a longer terminator-free run is still delivered whole as a single
line. -/
theorem claim9_cex :
    ¬ ∃ cap : Nat, ∀ n : Nat, cap < n →
      dispatchedLines (List.replicate n 'a') ≠ [List.replicate n 'a'] := by
  rintro ⟨cap, h⟩
  exact h (cap + 1) (Nat.lt_succ_self cap)
    (dispatchedLines_replicate (cap + 1) (Nat.succ_pos cap))

/-- Claim C9 amended: the per-slot line buffer is unbounded: a run of `n`
terminator-free bytes is delivered whole as one dispatched line for every
`n`, it matches no built-in command, and (with no hook registered) the only
response is the fixed unknown-command text — no "line too long" message
exists anywhere in the code. -/
theorem claim9_unbounded (cfg : DeviceConfig) (env : Env)
    (slots : List TelnetClient) (now i : Nat) :
    ∀ n : Nat, 0 < n →
      dispatchedLines (List.replicate n 'a') = [List.replicate n 'a'] ∧
      isBuiltin (String.mk (List.replicate n 'a')) = false ∧
      (dispatch cfg env slots now i false
          (String.mk (List.replicate n 'a'))).events =
        [(Dest.slot i, unknownText)] := by
  intro n hn
  refine ⟨dispatchedLines_replicate n hn, isBuiltin_replicate_a n hn, ?_⟩
  rw [dispatch_not_builtin cfg env slots now i false _
    (isBuiltin_replicate_a n hn)]
  rfl

/-- Witness for C9 amended: a 50-byte terminator-free run. -/
theorem claim9_unbounded_witness :
    dispatchedLines (List.replicate 50 'a') = [List.replicate 50 'a'] ∧
    (dispatch sampleConfig sampleEnv [busySlot] 0 0 false
        (String.mk (List.replicate 50 'a'))).events =
      [(Dest.slot 0, unknownText)] := by
  have h := claim9_unbounded sampleConfig sampleEnv [busySlot] 0 0 50
    (by decide)
  exact ⟨h.1, h.2.2⟩

/-- Claim C8: `lastActivity` is reset to the admission time when a slot is
admitted; a service pass over an occupied live slot sets it to the current
time exactly when the pass dispatches at least one complete (nonempty)
line, leaves it untouched otherwise, and never decreases it while the
clock is not behind the stored timestamp. -/
theorem claim8_lastActivity :
    (∀ (now : Nat) (c : Transport) (slots : List TelnetClient) (i : Nat),
      firstFreeIdx slots = some i →
      ∃ s', (admitLoop now c slots).slots[i]? = some s' ∧
        s'.lastActivity = now) ∧
    (∀ (cfg : DeviceConfig) (env : Env) (hook : Bool) (now i : Nat)
        (slots : List TelnetClient) (s : TelnetClient),
      slots[i]? = some s → s.connected = true → s.client.live = true →
      ∃ s', (handleSlotData cfg env hook now i slots).slots[i]? = some s' ∧
        s'.lastActivity =
          (if (dispatchedLines s.client.pending).isEmpty then s.lastActivity
           else now) ∧
        (s.lastActivity ≤ now → s.lastActivity ≤ s'.lastActivity)) := by
  constructor
  · intro now c slots i hfree
    obtain ⟨sOld, hsOld, _⟩ := firstFreeIdx_get slots i hfree
    rw [admitLoop_spec now c slots i sOld hfree hsOld]
    have hlt : i < slots.length := (List.getElem?_eq_some.mp hsOld).1
    exact ⟨_, List.getElem?_set_self hlt, rfl⟩
  · intro cfg env hook now i slots s hs hc hl
    obtain ⟨s', h1, h2⟩ :=
      handleSlotData_lastActivity cfg env hook now i slots s hs hc hl
    refine ⟨s', h1, h2, ?_⟩
    intro hle
    rw [h2]
    by_cases hd : (dispatchedLines s.client.pending).isEmpty <;>
      simp [hd, hle]

/-- Witness for C8: admission at time 42 stamps 42; a pass at time 9 that
dispatches the pending "help" line stamps 9. -/
theorem claim8_lastActivity_witness :
    ((admitLoop 42 sampleTransport [freeSlot]).slots[0]?).map
      (fun s => s.lastActivity) = some 42 ∧
    ((handleSlotData sampleConfig sampleEnv false 9 0
        [pendingSlot]).slots[0]?).map (fun s => s.lastActivity) =
      some 9 := by
  constructor
  · obtain ⟨s', h1, h2⟩ :=
      claim8_lastActivity.1 42 sampleTransport [freeSlot] 0 (by decide)
    rw [h1, Option.map_some', h2]
  · obtain ⟨s', h1, h2, _⟩ :=
      claim8_lastActivity.2 sampleConfig sampleEnv false 9 0 [pendingSlot]
        pendingSlot (by decide) (by decide) (by decide)
    rw [h1, Option.map_some', h2]
    decide

/-- Claim C10: with the telnet enable flag false, `broadcastTelnet` (and
`sendToTelnet`, which delegates to it) writes nothing to any client even
when slots are occupied with live transports; with the flag true, the
message goes exactly to the slots that are both flagged connected and
transport-live, in increasing index order. -/
theorem claim10_broadcast (cfg : DeviceConfig) (slots : List TelnetClient)
    (m : String) :
    (cfg.enableTelnet = false →
      broadcastTelnet cfg slots m = [] ∧ sendToTelnet cfg slots m = []) ∧
    (cfg.enableTelnet = true →
      broadcastTelnet cfg slots m =
        (List.range slots.length).filterMap (fun j =>
          match slots[j]? with
          | some s =>
            if s.connected && s.client.live then some (Dest.slot j, m)
            else none
          | none => none) ∧
      sendToTelnet cfg slots m = broadcastTelnet cfg slots m) := by
  constructor
  · intro h
    simp [broadcastTelnet, sendToTelnet, h]
  · intro h
    constructor
    · rw [broadcastTelnet, if_pos (by simp [h]), broadcastLoop_eq]
      apply List.filterMap_congr
      intro j _
      cases slots[j]? <;> simp
    · simp [sendToTelnet, h]

/-- Witness for C10: a disabled configuration broadcasts nothing over an
occupied live table; an enabled one reaches exactly the live slots. -/
theorem claim10_broadcast_witness :
    broadcastTelnet { sampleConfig with enableTelnet := false }
      [busySlot, busySlot] "x" = [] ∧
    sendToTelnet { sampleConfig with enableTelnet := false }
      [busySlot, busySlot] "x" = [] ∧
    broadcastTelnet sampleConfig [busySlot, freeSlot, busySlot] "x" =
      (List.range 3).filterMap (fun j =>
        match [busySlot, freeSlot, busySlot][j]? with
        | some s =>
          if s.connected && s.client.live then some (Dest.slot j, "x")
          else none
        | none => none) := by
  have h1 := (claim10_broadcast { sampleConfig with enableTelnet := false }
    [busySlot, busySlot] "x").1 (by decide)
  have h2 := (claim10_broadcast sampleConfig [busySlot, freeSlot, busySlot]
    "x").2 (by decide)
  exact ⟨h1.1, h1.2, h2.1⟩

/-- Claim C6: a dispatched line matching no built-in command goes to the
external hook when one is registered — the hook receives the line and the
issuing slot's transport handle, and the core writes nothing; with no hook
registered the core writes the fixed unknown-command text to that slot; a
line matching the built-in table never reaches the hook. -/
theorem claim6_dispatch_fallback (cfg : DeviceConfig) (env : Env)
    (slots : List TelnetClient) (now i : Nat) (cmd : String) :
    (isBuiltin cmd = false →
      (dispatch cfg env slots now i true cmd).hookCall = some (cmd, i) ∧
      (dispatch cfg env slots now i true cmd).events = [] ∧
      (dispatch cfg env slots now i false cmd).hookCall = none ∧
      (dispatch cfg env slots now i false cmd).events =
        [(Dest.slot i, unknownText)]) ∧
    (isBuiltin cmd = true → ∀ hk : Bool,
      (dispatch cfg env slots now i hk cmd).hookCall = none) := by
  constructor
  · intro h
    rw [dispatch_not_builtin cfg env slots now i true cmd h,
      dispatch_not_builtin cfg env slots now i false cmd h]
    simp
  · intro h hk
    have h' : cmd = "help" ∨ cmd = "?" ∨ cmd = "status" ∨
        cmd = "restart" ∨ cmd = "factoryreset" ∨ cmd = "clients" ∨
        cmd = "wifi" ∨ cmd = "memory" ∨ cmd = "config" ∨ cmd = "clear" ∨
        cmd = "cls" ∨ cmd = "disconnect" := by
      simpa [isBuiltin, or_assoc] using h
    rcases h' with h | h | h | h | h | h | h | h | h | h | h | h <;>
      subst h <;> simp [dispatch]

/-- Witness for C6: "foobar" reaches the hook with the slot handle when
registered, gets the fixed unknown-command text when not; "help" never
reaches the hook. -/
theorem claim6_dispatch_fallback_witness :
    (dispatch sampleConfig sampleEnv [busySlot] 0 0 true
      "foobar").hookCall = some ("foobar", 0) ∧
    (dispatch sampleConfig sampleEnv [busySlot] 0 0 false
      "foobar").events = [(Dest.slot 0, unknownText)] ∧
    (dispatch sampleConfig sampleEnv [busySlot] 0 0 true
      "help").hookCall = none := by
  have h := claim6_dispatch_fallback sampleConfig sampleEnv [busySlot] 0 0
    "foobar"
  have h2 := claim6_dispatch_fallback sampleConfig sampleEnv [busySlot] 0 0
    "help"
  exact ⟨(h.1 (by decide)).1, (h.1 (by decide)).2.2.2,
    h2.2 (by decide) true⟩

/-- Claim C7 counterexample: the claim says every core-handled dispatch
branch ends by appending a fresh `"> "` prompt; the `disconnect` branch is
handled by the core and its final write is the farewell text, which does
not end with the prompt. -/
theorem claim7_cex :
    ((dispatch sampleConfig sampleEnv [busySlot] 0 0 false
        "disconnect").events.getLast?).map (fun e => endsWithPrompt e.2) =
      some false := by decide

/-- Claim C7 amended: every dispatch branch that the core answers itself
and that neither closes the issuing connection (`disconnect`) nor restarts
the device (`restart`, `factoryreset`) ends by appending a `"> "` prompt
marker to the issuing slot's transport; the terminal branches end with
their farewell or notice instead, and hook-forwarded lines produce no core
output. -/
theorem claim7_prompt (cfg : DeviceConfig) (env : Env)
    (slots : List TelnetClient) (now i : Nat) (hk : Bool) (cmd : String)
    (hhook : (dispatch cfg env slots now i hk cmd).hookCall = none)
    (hstop : (dispatch cfg env slots now i hk cmd).stopsClient = false)
    (hhalt : (dispatch cfg env slots now i hk cmd).halts = false) :
    ∃ msg, (dispatch cfg env slots now i hk cmd).events.getLast? =
        some (Dest.slot i, msg) ∧ endsWithPrompt msg = true := by
  by_cases hb : isBuiltin cmd = true
  · have h' : cmd = "help" ∨ cmd = "?" ∨ cmd = "status" ∨
        cmd = "restart" ∨ cmd = "factoryreset" ∨ cmd = "clients" ∨
        cmd = "wifi" ∨ cmd = "memory" ∨ cmd = "config" ∨ cmd = "clear" ∨
        cmd = "cls" ∨ cmd = "disconnect" := by
      simpa [isBuiltin, or_assoc] using hb
    rcases h' with h | h | h | h | h | h | h | h | h | h | h | h <;> subst h
    · exact ⟨helpBody ++ "> ", by simp [dispatch],
        endsWithPrompt_append _⟩
    · exact ⟨helpBody ++ "> ", by simp [dispatch],
        endsWithPrompt_append _⟩
    · exact ⟨statusBody cfg env slots ++ "> ", by simp [dispatch],
        endsWithPrompt_append _⟩
    · rw [show (dispatch cfg env slots now i hk "restart").halts = true by
        simp [dispatch]] at hhalt
      cases hhalt
    · rw [show (dispatch cfg env slots now i hk "factoryreset").halts =
          true by simp [dispatch]] at hhalt
      cases hhalt
    · exact ⟨clientsBody now slots ++ "> ", by simp [dispatch],
        endsWithPrompt_append _⟩
    · exact ⟨wifiBody env ++ "> ", by simp [dispatch],
        endsWithPrompt_append _⟩
    · exact ⟨memoryBody env ++ "> ", by simp [dispatch],
        endsWithPrompt_append _⟩
    · exact ⟨configBody cfg ++ "> ", by simp [dispatch],
        endsWithPrompt_append _⟩
    · exact ⟨"> ", by simp [dispatch], by decide⟩
    · exact ⟨"> ", by simp [dispatch], by decide⟩
    · rw [show (dispatch cfg env slots now i hk "disconnect").stopsClient =
          true by simp [dispatch]] at hstop
      cases hstop
  · have hb' : isBuiltin cmd = false := by simpa using hb
    rw [dispatch_not_builtin cfg env slots now i hk cmd hb'] at hhook ⊢
    cases hk
    · exact ⟨unknownText, by simp, by decide⟩
    · simp at hhook

/-- Witness for C7 amended: the `help` branch ends with the prompt. -/
theorem claim7_prompt_witness :
    ((dispatch sampleConfig sampleEnv [busySlot] 0 0 false
        "help").events.getLast?).map (fun e => endsWithPrompt e.2) =
      some true := by
  obtain ⟨msg, h1, h2⟩ := claim7_prompt sampleConfig sampleEnv [busySlot]
    0 0 false "help" (by decide) (by decide) (by decide)
  rw [h1, Option.map_some', h2]

end EasyConnect
